import Mathlib

/-!
Verification of the go-simple-tcp-server connection handler (`src/main.go`).

The server constants, the per-connection handler `handleConnection`, and the
admission logic of `acceptConns` are embedded from `main.go`.  The `Counter`
type (`NewCounter`, `Inc`, `HasValue`, `RecordUniq`, the semaphore channel
`Sem`) is referenced by `main.go` but its definition is not part of the
sources at hand; those operations are modelled from the specification
(section 3 "DATA MODEL" and section 4.1 "Shared Counter State") and are
marked as such in their doc comments.

Strings are modelled as lists of characters; all protocol data is ASCII, so
Go's byte-wise `len` agrees with the character count used here.
-/

namespace TcpServer

/-- Constant `validLen = 10` from `main.go`. -/
def validLen : Nat := 10

/-- Constant `minValue = 1000000` from `main.go`. -/
def minValue : Int := 1000000

/-- Constant `connLimit = 6` from `main.go`. -/
def connLimit : Nat := 6

/-- Modelled from the spec: the `Counter` type of the repository (created by
`NewCounter` in `main.go`) is not among the sources at hand.  Per the spec's
data model it holds `totalValid` and `intervalValid` (RunningTotals), the
dedup set of previously recorded values (here `seen`), and the unique-values
log appended by `RecordUniq` (here `uniqLog`).  The semaphore channel `Sem`
is modelled separately as a natural number of outstanding tokens. -/
structure Counter where
  totalValid : Nat
  intervalValid : Nat
  seen : List Int
  uniqLog : List Int
deriving DecidableEq, Repr

/-- A freshly created counter: all totals zero, nothing recorded. -/
def Counter.init : Counter := ⟨0, 0, [], []⟩

/-- Modelled from the spec: `RecordValid` / `counter.Inc()` increments
`totalValid` and `intervalValid` by one. -/
def Counter.Inc (c : Counter) : Counter :=
  { c with totalValid := c.totalValid + 1, intervalValid := c.intervalValid + 1 }

/-- Modelled from the spec: `HasSeen` / `counter.HasValue(num)` reports
whether the value is already in the dedup set. -/
def Counter.HasValue (c : Counter) (n : Int) : Bool :=
  c.seen.contains n

/-- Modelled from the spec: `RecordUnique` / `counter.RecordUniq(num)`
inserts a value absent from the dedup set and appends it to the durable
unique-values log.  The durability failure of the real operation is
injected in the handler via the `recordFails` flag. -/
def Counter.RecordUniq (c : Counter) (n : Int) : Counter :=
  { c with seen := n :: c.seen, uniqLog := c.uniqLog ++ [n] }

/-- The error returned by `bufio.Reader.ReadString`: either a clean
end-of-stream (`io.EOF`) or some other read error. -/
inductive ReadErr where
  | eof
  | other (msg : String)
deriving DecidableEq, Repr

/-- Observable events of one connection's processing, mirroring the
statements of `main.go`: responses written with `fmt.Fprintf(conn, ...)`,
the `strconv.Atoi` call, counter operations, `conn.Close()`, draining the
semaphore (`<-counter.Sem`), and `log.Fatalf`. -/
inductive Ev where
  | respond (s : String)
  | parseAttempt (s : String)
  | inc
  | hasValue (n : Int) (r : Bool)
  | recordUniq (n : Int)
  | closeConn
  | release
  | fatal (msg : String)
deriving DecidableEq, Repr

/-- Response of the length check in `handleConnection`:
`"ERR Malformed Request: expected length %d, got %d.\n"`. -/
def lenErrMsg (m : Nat) : String :=
  "ERR Malformed Request: expected length " ++ toString validLen ++ ", got "
    ++ toString m ++ ".\n"

/-- Response of the parse check: `"ERR Malformed Request: expected number\n"`. -/
def numErrMsg : String := "ERR Malformed Request: expected number\n"

/-- Response of the range check:
`"ERR Malformed Request: expected number greater than %d\n"`. -/
def rangeErrMsg : String :=
  "ERR Malformed Request: expected number greater than " ++ toString minValue ++ "\n"

/-- The busy response written by `acceptConns` when the semaphore is full. -/
def busyMsg : String := "Server busy."

/-- The `log.Fatalf` message when `counter.RecordUniq` fails. -/
def recordFailMsg : String := "could not log unique value"

/-- The success echo `fmt.Fprintf(conn, "%d\n", num)`. -/
def intLine (n : Int) : String := toString n ++ "\n"

/-- Parse a nonempty run of decimal digits, as Go's `strconv.ParseUint`
does for base 10 (accumulator loop; any non-digit is a syntax error). -/
def parseDigitsAux : List Char → Nat → Option Nat
  | [], acc => some acc
  | ch :: rest, acc =>
    if ch.isDigit then parseDigitsAux rest (acc * 10 + (ch.toNat - 48))
    else none

/-- Digits parser: the empty string is a syntax error. -/
def parseDigits : List Char → Option Nat
  | [] => none
  | ch :: rest => parseDigitsAux (ch :: rest) 0

/-- Go's 64-bit `int` cutoff `1 << 63` used by `strconv.ParseInt`. -/
def int64Bound : Nat := 2 ^ 63

/-- Embedding of Go's `strconv.Atoi` (= `ParseInt(s, 10, 0)` with 64-bit
`int`): an optional leading sign, then a nonempty run of decimal digits,
with the 64-bit range check; no whitespace trimming, so a trailing newline
is a syntax error.  `none` stands for a non-nil error (syntax or range). -/
def atoi (s : String) : Option Int :=
  match s.data with
  | [] => none
  | ch :: rest =>
    let signed : Bool × List Char :=
      if ch = '-' then (true, rest)
      else if ch = '+' then (false, rest)
      else (false, ch :: rest)
    match parseDigits signed.2 with
    | none => none
    | some n =>
      if signed.1 then
        if n ≤ int64Bound then some (-(n : Int)) else none
      else
        if n < int64Bound then some (n : Int) else none

/-- Split off the first line of the stream, delimiter included, as
`bufio.Reader.ReadString('\n')` does; the boolean tells whether the
delimiter was found before the stream ended. -/
def splitLine : List Char → List Char × Bool
  | [] => ([], false)
  | ch :: rest =>
    if ch = '\n' then ([ch], true)
    else
      let p := splitLine rest
      (ch :: p.1, p.2)

/-- Reading one line from a connection whose full input stream is `input`
followed by end-of-stream: `ReadString` returns the line up to and
including `'\n'` with a nil error, or everything read together with
`io.EOF` when the stream ends first. -/
def readConn (input : String) : String × Option ReadErr :=
  let p := splitLine input.data
  (⟨p.1⟩, if p.2 then none else some ReadErr.eof)

/-- The body of `handleConnection` in `main.go` (everything except the
deferred cleanup), as the list of events it performs and the resulting
counter.  `log.Fatalf` (modelled by `Ev.fatal`) terminates the process, so
nothing follows it.  `recordFails` injects the durable-log failure of
`counter.RecordUniq`. -/
def handlerBody (s : String) (err : Option ReadErr) (c : Counter)
    (recordFails : Bool) : List Ev × Counter :=
  match err with
  | some (ReadErr.other msg) => ([Ev.fatal ("Error reading: " ++ msg)], c)
  | _ =>
    if s.length ≠ validLen then
      ([Ev.respond (lenErrMsg s.length)], c)
    else
      match atoi s with
      | none => ([Ev.parseAttempt s, Ev.respond numErrMsg], c)
      | some num =>
        if num < minValue then
          ([Ev.parseAttempt s, Ev.respond rangeErrMsg], c)
        else
          let c1 := Counter.Inc c
          let pre := [Ev.parseAttempt s, Ev.inc, Ev.respond (intLine num)]
          if Counter.HasValue c1 num then
            (pre ++ [Ev.hasValue num true], c1)
          else if recordFails then
            (pre ++ [Ev.hasValue num false, Ev.fatal recordFailMsg], c1)
          else
            (pre ++ [Ev.hasValue num false, Ev.recordUniq num],
              Counter.RecordUniq c1 num)

/-- Does the event list contain a `log.Fatalf` (process abort)? -/
def isFatalEv : Ev → Bool
  | Ev.fatal _ => true
  | _ => false

/-- Whether processing aborted the process. -/
def isFatal (evs : List Ev) : Bool := evs.any isFatalEv

/-- `handleConnection` from `main.go`: run the body; unless the process was
aborted by `log.Fatalf` (which skips deferred functions via `os.Exit`), the
deferred closure then closes the connection and drains one semaphore
token. -/
def handleConnection (s : String) (err : Option ReadErr) (c : Counter)
    (recordFails : Bool) : List Ev × Counter :=
  let r := handlerBody s err c recordFails
  if isFatal r.1 then r else (r.1 ++ [Ev.closeConn, Ev.release], r.2)

/-- Run one admitted connection end to end: read one line from its input
stream, then handle it. -/
def runConn (input : String) (c : Counter) (recordFails : Bool) :
    List Ev × Counter :=
  let p := readConn input
  handleConnection p.1 p.2 c recordFails

/-- Number of semaphore releases (`<-counter.Sem`) in an event list. -/
def isReleaseEv : Ev → Bool
  | Ev.release => true
  | _ => false

/-- Count of release events. -/
def countRelease (evs : List Ev) : Nat := (evs.filter isReleaseEv).length

/-- Responses written to the client, in order. -/
def responsesOf (evs : List Ev) : List String :=
  evs.filterMap fun e =>
    match e with
    | Ev.respond s => some s
    | _ => none

/-- The admission decision of `acceptConns` together with the connection's
processing.  Modelled from the spec for the semaphore: `counter.Sem` is a
channel of capacity `connLimit`, so the non-blocking send
`case counter.Sem <- 1` succeeds exactly when fewer than `connLimit` tokens
are outstanding; on failure the connection gets the busy message and is
closed without any handling.  The resulting outstanding-token count
reflects the acquisition and any release performed by the handler. -/
def processConn (outstanding : Nat) (input : String) (c : Counter)
    (recordFails : Bool) : List Ev × Counter × Nat :=
  if outstanding < connLimit then
    let r := runConn input c recordFails
    (r.1, r.2, outstanding + 1 - countRelease r.1)
  else
    ([Ev.respond busyMsg, Ev.closeConn], c, outstanding)

/-- Modelled from the spec: a single transition of the admission gate.  A
token is acquired only when the pool is below capacity (the non-blocking
channel send succeeds); a release (`<-counter.Sem`) drains one outstanding
token and blocks when none is outstanding, so it only fires from a positive
count. -/
inductive GateStep : Nat → Nat → Prop where
  | acquire (n : Nat) (h : n < connLimit) : GateStep n (n + 1)
  | release (n : Nat) : GateStep (n + 1) n

/-- Gate states reachable from startup (no tokens outstanding). -/
inductive GateReachable : Nat → Prop where
  | init : GateReachable 0
  | step {n m : Nat} : GateReachable n → GateStep n m → GateReachable m

/-! ### Lemmas characterizing the handler on each path -/

/-- `readConn` reports either no error or a clean end-of-stream, never
another read error. -/
theorem readConn_cases (input : String) :
    (readConn input).2 = none ∨ (readConn input).2 = some ReadErr.eof := by
  simp only [readConn]
  cases (splitLine input.data).2 <;> simp

/-- The body treats a nil read error and a clean `io.EOF` identically. -/
theorem handleConnection_eof (s : String) (c : Counter) (re : Bool) :
    handleConnection s (some ReadErr.eof) c re = handleConnection s none c re := rfl

/-- Running a connection is handling its first line with a benign read
result. -/
theorem runConn_eq_none (input : String) (c : Counter) (re : Bool) :
    runConn input c re = handleConnection (readConn input).1 none c re := by
  simp only [runConn]
  rcases readConn_cases input with h | h
  · rw [h]
  · rw [h, handleConnection_eof]

/-- Length-mismatch path of `handleConnection`. -/
theorem handleConnection_len (s : String) (c : Counter) (re : Bool)
    (h : s.length ≠ validLen) :
    handleConnection s none c re =
      ([Ev.respond (lenErrMsg s.length), Ev.closeConn, Ev.release], c) := by
  simp [handleConnection, handlerBody, h, isFatal, isFatalEv]

/-- Parse-failure path of `handleConnection`. -/
theorem handleConnection_parse (s : String) (c : Counter) (re : Bool)
    (hlen : s.length = validLen) (hp : atoi s = none) :
    handleConnection s none c re =
      ([Ev.parseAttempt s, Ev.respond numErrMsg, Ev.closeConn, Ev.release], c) := by
  simp [handleConnection, handlerBody, hlen, hp, isFatal, isFatalEv]

/-- Range-failure path of `handleConnection`. -/
theorem handleConnection_range (s : String) (c : Counter) (re : Bool) (num : Int)
    (hlen : s.length = validLen) (hp : atoi s = some num) (hr : num < minValue) :
    handleConnection s none c re =
      ([Ev.parseAttempt s, Ev.respond rangeErrMsg, Ev.closeConn, Ev.release], c) := by
  simp [handleConnection, handlerBody, hlen, hp, hr, isFatal, isFatalEv]

/-- Successful path for a not-yet-seen value with a working unique log. -/
theorem handleConnection_new (s : String) (c : Counter) (num : Int)
    (hlen : s.length = validLen) (hp : atoi s = some num) (hr : minValue ≤ num)
    (hnew : Counter.HasValue c num = false) :
    handleConnection s none c false =
      ([Ev.parseAttempt s, Ev.inc, Ev.respond (intLine num),
        Ev.hasValue num false, Ev.recordUniq num, Ev.closeConn, Ev.release],
        Counter.RecordUniq (Counter.Inc c) num) := by
  have hr2 : ¬ num < minValue := not_lt.mpr hr
  have hv : Counter.HasValue (Counter.Inc c) num = false := hnew
  simp [handleConnection, handlerBody, hlen, hp, hr2, hv, isFatal, isFatalEv]

/-- Successful path for an already-seen value. -/
theorem handleConnection_dup (s : String) (c : Counter) (re : Bool) (num : Int)
    (hlen : s.length = validLen) (hp : atoi s = some num) (hr : minValue ≤ num)
    (hdup : Counter.HasValue c num = true) :
    handleConnection s none c re =
      ([Ev.parseAttempt s, Ev.inc, Ev.respond (intLine num),
        Ev.hasValue num true, Ev.closeConn, Ev.release], Counter.Inc c) := by
  have hr2 : ¬ num < minValue := not_lt.mpr hr
  have hv : Counter.HasValue (Counter.Inc c) num = true := hdup
  simp [handleConnection, handlerBody, hlen, hp, hr2, hv, isFatal, isFatalEv]

/-- Path where recording a newly unique value fails: `log.Fatalf` aborts the
process, skipping the deferred cleanup. -/
theorem handleConnection_recordFail (s : String) (c : Counter) (num : Int)
    (hlen : s.length = validLen) (hp : atoi s = some num) (hr : minValue ≤ num)
    (hnew : Counter.HasValue c num = false) :
    handleConnection s none c true =
      ([Ev.parseAttempt s, Ev.inc, Ev.respond (intLine num),
        Ev.hasValue num false, Ev.fatal recordFailMsg], Counter.Inc c) := by
  have hr2 : ¬ num < minValue := not_lt.mpr hr
  have hv : Counter.HasValue (Counter.Inc c) num = false := hnew
  simp [handleConnection, handlerBody, hlen, hp, hr2, hv, isFatal, isFatalEv]

/-- A read error other than `io.EOF` is `log.Fatalf`: the process aborts at
once, before any validation, response, or deferred cleanup. -/
theorem handleConnection_readErr (s : String) (msg : String) (c : Counter)
    (re : Bool) :
    handleConnection s (some (ReadErr.other msg)) c re =
      ([Ev.fatal ("Error reading: " ++ msg)], c) := rfl

/-- A stream without a newline among all-digit characters is read whole,
with a clean end-of-stream. -/
theorem splitLine_no_newline (l : List Char) (h : '\n' ∉ l) :
    splitLine l = (l, false) := by
  induction l with
  | nil => rfl
  | cons ch rest ih =>
    have hch : ¬ ch = '\n' := by
      intro hc
      exact h (hc ▸ List.mem_cons_self ch rest)
    have hrest : '\n' ∉ rest := fun hm => h (List.mem_cons_of_mem ch hm)
    simp [splitLine, hch, ih hrest]

/-- Reading a connection whose whole stream is digits yields the stream
itself together with `io.EOF`. -/
theorem readConn_digits (s : String) (h : s.data.all Char.isDigit = true) :
    readConn s = (s, some ReadErr.eof) := by
  have hnl : '\n' ∉ s.data := by
    intro hm
    have := List.all_eq_true.mp h '\n' hm
    simp at this
  simp [readConn, splitLine_no_newline s.data hnl]

/-- The handler body itself never drains the semaphore; the sole release
is the one appended by the deferred cleanup, and it is skipped exactly when
`log.Fatalf` aborted the process. -/
theorem handleConnection_release_count (s : String) (c : Counter) (re : Bool) :
    countRelease (handleConnection s none c re).1
      = (if isFatal (handleConnection s none c re).1 then 0 else 1) := by
  by_cases hlen : s.length = validLen
  · cases hp : atoi s with
    | none => rw [handleConnection_parse s c re hlen hp]; rfl
    | some num =>
      by_cases hr : num < minValue
      · rw [handleConnection_range s c re num hlen hp hr]; rfl
      · cases hv : Counter.HasValue c num with
        | true =>
          rw [handleConnection_dup s c re num hlen hp (not_lt.mp hr) hv]; rfl
        | false =>
          cases re with
          | false =>
            rw [handleConnection_new s c num hlen hp (not_lt.mp hr) hv]; rfl
          | true =>
            rw [handleConnection_recordFail s c num hlen hp (not_lt.mp hr) hv]; rfl
  · rw [handleConnection_len s c re hlen]; rfl

/-! ### The claims -/

/-- Claim C1 — code bug.  Per the spec's protocol a well-formed request is
exactly 10 bytes, decimal digits followed by a newline, parsing to a value
at least 1000000; the claim says such a request increments `totalValid` and
is echoed back.  The code passes the raw line, newline included, to
`strconv.Atoi`, which rejects the trailing newline, so every such request
gets the parse-error response and changes nothing: evaluating the handler
at the well-formed input `"123456789\n"` yields the malformed-number error
and an unchanged counter. -/
theorem c1_wellformed_input_rejected :
    runConn "123456789\n" Counter.init false =
      ([Ev.parseAttempt "123456789\n", Ev.respond numErrMsg,
        Ev.closeConn, Ev.release], Counter.init) := by rfl

/-- Claim C2 — counterexample.  The input `"0000000001\n"` is 11 bytes, so
the handler answers with the length-mismatch error naming 11, not with the
below-threshold error the claim states, and makes no record. -/
theorem c2_counterexample :
    runConn "0000000001\n" Counter.init false =
      ([Ev.respond "ERR Malformed Request: expected length 10, got 11.\n",
        Ev.closeConn, Ev.release], Counter.init) := by rfl

/-- Claim C2 — amended.  The input that actually exercises the range check
is the 10-byte line `"0000000001"` with no newline, delivered at
end-of-stream: it parses to 1, is below 1000000, draws exactly the response
`"ERR Malformed Request: expected number greater than 1000000\n"`, and the
handler ends with no record made. -/
theorem c2_below_threshold_rejected :
    runConn "0000000001" Counter.init false =
      ([Ev.parseAttempt "0000000001",
        Ev.respond "ERR Malformed Request: expected number greater than 1000000\n",
        Ev.closeConn, Ev.release], Counter.init) := by rfl

/-- Claim C3 — confirmed.  Whenever the raw first line of the stream
(newline included when present) is not exactly 10 bytes, the handler
responds with the length-mismatch error naming the actual length, attempts
no parse, and leaves the counter untouched; in particular the 4-byte line
`"123\n"` gets `"ERR Malformed Request: expected length 10, got 4.\n"`. -/
theorem c3_length_mismatch_rejected (input : String) (c : Counter) (re : Bool)
    (h : ((readConn input).1).length ≠ validLen) :
    runConn input c re =
      ([Ev.respond (lenErrMsg ((readConn input).1).length),
        Ev.closeConn, Ev.release], c)
    ∧ (∀ t, Ev.parseAttempt t ∉ (runConn input c re).1)
    ∧ runConn "123\n" c re =
        ([Ev.respond "ERR Malformed Request: expected length 10, got 4.\n",
          Ev.closeConn, Ev.release], c) := by
  have h1 := (runConn_eq_none input c re).trans
    (handleConnection_len (readConn input).1 c re h)
  refine ⟨h1, ?_, ?_⟩
  · intro t
    rw [h1]
    simp
  · exact (runConn_eq_none "123\n" c re).trans
      (handleConnection_len (readConn "123\n").1 c re (by decide))

/-- Witness for C3 at the 4-byte input `"123\n"`. -/
theorem c3_witness :
    runConn "123\n" Counter.init false =
      ([Ev.respond (lenErrMsg ((readConn "123\n").1).length),
        Ev.closeConn, Ev.release], Counter.init) :=
  (c3_length_mismatch_rejected "123\n" Counter.init false (by decide)).1

/-- Claim C4 — confirmed (Counter operations modelled from the spec).
Submitting the same valid value twice grows the dedup set by exactly 1 in
total, not 2; the second submission still echoes the number and still
increments `totalValid` and `intervalValid`, but `RecordUniq` is not called
again and the unique log gains no new entry. -/
theorem c4_duplicate_submission (input : String) (c : Counter) (num : Int)
    (hlen : ((readConn input).1).length = validLen)
    (hp : atoi (readConn input).1 = some num)
    (hr : minValue ≤ num)
    (hnew : Counter.HasValue c num = false) :
    ((runConn input c false).2.seen).length = c.seen.length + 1
    ∧ (runConn input (runConn input c false).2 false).2.seen
        = (runConn input c false).2.seen
    ∧ responsesOf (runConn input (runConn input c false).2 false).1
        = [intLine num]
    ∧ (runConn input (runConn input c false).2 false).2.totalValid
        = (runConn input c false).2.totalValid + 1
    ∧ (runConn input (runConn input c false).2 false).2.intervalValid
        = (runConn input c false).2.intervalValid + 1
    ∧ (runConn input (runConn input c false).2 false).2.uniqLog
        = (runConn input c false).2.uniqLog
    ∧ Ev.recordUniq num ∉ (runConn input (runConn input c false).2 false).1 := by
  have e1 := (runConn_eq_none input c false).trans
    (handleConnection_new (readConn input).1 c num hlen hp hr hnew)
  have hdup : Counter.HasValue (runConn input c false).2 num = true := by
    rw [e1]
    simp [Counter.HasValue, Counter.RecordUniq]
  have e2 := (runConn_eq_none input (runConn input c false).2 false).trans
    (handleConnection_dup (readConn input).1 (runConn input c false).2 false num
      hlen hp hr hdup)
  refine ⟨?_, ?_, ?_, ?_, ?_, ?_, ?_⟩
  · rw [e1]; simp [Counter.RecordUniq, Counter.Inc]
  · rw [e2]; simp [Counter.Inc]
  · rw [e2]; rfl
  · rw [e2]; rfl
  · rw [e2]; rfl
  · rw [e2]; rfl
  · rw [e2]; simp

/-- Witness for C4 at the value 1234567890 submitted twice from a fresh
counter. -/
theorem c4_witness :
    ((runConn "1234567890" Counter.init false).2.seen).length
        = Counter.init.seen.length + 1
    ∧ responsesOf
        (runConn "1234567890" (runConn "1234567890" Counter.init false).2 false).1
        = [intLine 1234567890]
    ∧ (runConn "1234567890" (runConn "1234567890" Counter.init false).2 false).2.uniqLog
        = (runConn "1234567890" Counter.init false).2.uniqLog := by
  have h := c4_duplicate_submission "1234567890" Counter.init 1234567890
    (by decide) (by decide) (by decide) (by decide)
  exact ⟨h.1, h.2.2.1, h.2.2.2.2.2.1⟩

/-- Claim C5 — confirmed (semaphore channel modelled from the spec, its
capacity `connLimit = 6` from the source).  The admission gate has fixed
capacity 6, and in every reachable state the number of outstanding tokens —
hence of connections concurrently under handling — is at most 6. -/
theorem c5_gate_capacity :
    connLimit = 6 ∧ ∀ n, GateReachable n → n ≤ connLimit := by
  refine ⟨rfl, ?_⟩
  intro n h
  induction h with
  | init => exact Nat.zero_le _
  | step hr hs ih =>
    cases hs with
    | acquire k hk => exact hk
    | release k => omega

/-- Witness for C5 at the reachable state with one outstanding token. -/
theorem c5_witness : GateReachable 1 ∧ 1 ≤ connLimit :=
  ⟨GateReachable.step GateReachable.init (GateStep.acquire 0 (by decide)),
    c5_gate_capacity.2 1
      (GateReachable.step GateReachable.init (GateStep.acquire 0 (by decide)))⟩

/-- Claim C6 — confirmed.  Acquisition and release are strictly paired:
whenever the handler completes (every non-fatal path — normal return,
validation failure, clean end-of-stream read), its deferred cleanup drains
the semaphore exactly once; no run releases more than once; and a
connection the gate rejects gets only the busy response and a close — it
never runs handling logic and never releases, and the outstanding count is
unchanged. -/
theorem c6_acquire_release_paired :
    (∀ input c re, isFatal (runConn input c re).1 = false →
        countRelease (runConn input c re).1 = 1)
    ∧ (∀ input c re, countRelease (runConn input c re).1 ≤ 1)
    ∧ (∀ outstanding input c re, connLimit ≤ outstanding →
        processConn outstanding input c re =
          ([Ev.respond busyMsg, Ev.closeConn], c, outstanding)) := by
  refine ⟨?_, ?_, ?_⟩
  · intro input c re h
    rw [runConn_eq_none] at h ⊢
    rw [handleConnection_release_count, h]
    rfl
  · intro input c re
    rw [runConn_eq_none, handleConnection_release_count]
    split <;> omega
  · intro outstanding input c re h
    simp only [processConn]
    rw [if_neg (not_lt.mpr h)]

/-- Witness for C6: a completing run releases once, and a connection
arriving with all 6 tokens outstanding is turned away untouched. -/
theorem c6_witness :
    countRelease (runConn "" Counter.init false).1 = 1
    ∧ processConn 6 "" Counter.init false =
        ([Ev.respond busyMsg, Ev.closeConn], Counter.init, 6) :=
  ⟨c6_acquire_release_paired.1 "" Counter.init false (by decide),
    c6_acquire_release_paired.2.2 6 "" Counter.init false (by decide)⟩

/-- Claim C7 — confirmed (the durable-log failure of `RecordUniq` modelled
from the spec).  A read error other than clean end-of-stream aborts the
process at once via `log.Fatalf`, as does a failure to durably record a
newly unique value; the three client-input error kinds — wrong length,
unparsable number, value below the threshold — each draw a single error
response and never abort the process. -/
theorem c7_fatal_policy :
    (∀ s msg c re, handleConnection s (some (ReadErr.other msg)) c re =
        ([Ev.fatal ("Error reading: " ++ msg)], c))
    ∧ (∀ input c num, ((readConn input).1).length = validLen →
        atoi (readConn input).1 = some num → minValue ≤ num →
        Counter.HasValue c num = false →
        isFatal (runConn input c true).1 = true)
    ∧ (∀ input c re, ((readConn input).1).length ≠ validLen →
        isFatal (runConn input c re).1 = false ∧
        responsesOf (runConn input c re).1
          = [lenErrMsg ((readConn input).1).length])
    ∧ (∀ input c re, ((readConn input).1).length = validLen →
        atoi (readConn input).1 = none →
        isFatal (runConn input c re).1 = false ∧
        responsesOf (runConn input c re).1 = [numErrMsg])
    ∧ (∀ input c re num, ((readConn input).1).length = validLen →
        atoi (readConn input).1 = some num → num < minValue →
        isFatal (runConn input c re).1 = false ∧
        responsesOf (runConn input c re).1 = [rangeErrMsg]) := by
  refine ⟨fun s msg c re => handleConnection_readErr s msg c re, ?_, ?_, ?_, ?_⟩
  · intro input c num h1 h2 h3 h4
    rw [runConn_eq_none,
      handleConnection_recordFail (readConn input).1 c num h1 h2 h3 h4]
    rfl
  · intro input c re h
    rw [runConn_eq_none, handleConnection_len (readConn input).1 c re h]
    exact ⟨rfl, rfl⟩
  · intro input c re h1 h2
    rw [runConn_eq_none, handleConnection_parse (readConn input).1 c re h1 h2]
    exact ⟨rfl, rfl⟩
  · intro input c re num h1 h2 h3
    rw [runConn_eq_none, handleConnection_range (readConn input).1 c re num h1 h2 h3]
    exact ⟨rfl, rfl⟩

/-- Witness for C7: a concrete non-EOF read error aborts, a concrete
record failure aborts, and a concrete short line is answered without
aborting. -/
theorem c7_witness :
    handleConnection "" (some (ReadErr.other "boom")) Counter.init false =
      ([Ev.fatal ("Error reading: " ++ "boom")], Counter.init)
    ∧ isFatal (runConn "1234567890" Counter.init true).1 = true
    ∧ (isFatal (runConn "123\n" Counter.init false).1 = false ∧
        responsesOf (runConn "123\n" Counter.init false).1
          = [lenErrMsg ((readConn "123\n").1).length]) :=
  ⟨c7_fatal_policy.1 "" "boom" Counter.init false,
    c7_fatal_policy.2.1 "1234567890" Counter.init 1234567890
      (by decide) (by decide) (by decide) (by decide),
    c7_fatal_policy.2.2.1 "123\n" Counter.init false (by decide)⟩

/-- Claim C8 — confirmed.  Every 10-byte first line that `strconv.Atoi`
rejects draws the single response
`"ERR Malformed Request: expected number\n"`, and the counter — totals and
dedup set alike — is unchanged. -/
theorem c8_parse_error_response (input : String) (c : Counter) (re : Bool)
    (hlen : ((readConn input).1).length = validLen)
    (hp : atoi (readConn input).1 = none) :
    runConn input c re =
      ([Ev.parseAttempt (readConn input).1, Ev.respond numErrMsg,
        Ev.closeConn, Ev.release], c) :=
  (runConn_eq_none input c re).trans
    (handleConnection_parse (readConn input).1 c re hlen hp)

/-- Witness for C8 at the 10-byte non-numeric line `"abcdefghi\n"`. -/
theorem c8_witness :
    runConn "abcdefghi\n" Counter.init false =
      ([Ev.parseAttempt (readConn "abcdefghi\n").1, Ev.respond numErrMsg,
        Ev.closeConn, Ev.release], Counter.init) :=
  c8_parse_error_response "abcdefghi\n" Counter.init false (by decide) (by decide)

/-- Claim C9 — counterexample.  Ten digits with no newline are not always
accepted: the 10-digit input `"0000999999"` (value 999999, below the
threshold) passes the length check but draws the range error and leaves the
counter unchanged — nothing is incremented or echoed. -/
theorem c9_counterexample :
    runConn "0000999999" Counter.init false =
      ([Ev.parseAttempt "0000999999",
        Ev.respond "ERR Malformed Request: expected number greater than 1000000\n",
        Ev.closeConn, Ev.release], Counter.init) := by rfl

/-- Claim C9 — amended.  An input of exactly 10 decimal digits with no
newline terminator, followed immediately by end-of-stream and parsing to a
value at least 1000000, is accepted: the read yields a clean `io.EOF`, the
line passes the length check, `totalValid` is incremented, the process does
not abort, and the parsed number is echoed followed by a newline — even
though the spec's protocol requires the 10 bytes to include the
terminator. -/
theorem c9_digits_no_newline_accepted (s : String) (c : Counter) (num : Int)
    (hdig : s.data.all Char.isDigit = true)
    (hlen : s.length = validLen)
    (hp : atoi s = some num)
    (hr : minValue ≤ num) :
    readConn s = (s, some ReadErr.eof)
    ∧ responsesOf (runConn s c false).1 = [intLine num]
    ∧ (runConn s c false).2.totalValid = c.totalValid + 1
    ∧ isFatal (runConn s c false).1 = false := by
  have hread := readConn_digits s hdig
  have hrun : runConn s c false = handleConnection s none c false := by
    simp only [runConn]
    rw [hread, handleConnection_eof]
  cases hv : Counter.HasValue c num with
  | false =>
    rw [hrun, handleConnection_new s c num hlen hp hr hv]
    exact ⟨hread, rfl, rfl, rfl⟩
  | true =>
    rw [hrun, handleConnection_dup s c false num hlen hp hr hv]
    exact ⟨hread, rfl, rfl, rfl⟩

/-- Witness for C9 at the 10-digit, newline-free input `"1034567890"`. -/
theorem c9_witness :
    responsesOf (runConn "1034567890" Counter.init false).1
      = [intLine 1034567890]
    ∧ (runConn "1034567890" Counter.init false).2.totalValid
      = Counter.init.totalValid + 1 := by
  have h := c9_digits_no_newline_accepted "1034567890" Counter.init 1034567890
    (by decide) (by decide) (by decide) (by decide)
  exact ⟨h.2.1, h.2.2.1⟩

/-- Claim C10 — confirmed.  A connection that reaches clean end-of-stream
with no data is not treated as fatal and is not silently closed: the
handler responds with the length-mismatch error naming actual length 0 and
the deferred cleanup closes the connection and releases the slot
normally. -/
theorem c10_empty_stream (c : Counter) (re : Bool) :
    runConn "" c re =
      ([Ev.respond "ERR Malformed Request: expected length 10, got 0.\n",
        Ev.closeConn, Ev.release], c)
    ∧ isFatal (runConn "" c re).1 = false := by
  exact ⟨by rfl, by rfl⟩

end TcpServer
